import Mathlib

/-!
Verification of the transaction-correlation protocol and its callers in the
bluebubbles-server repository.

The shallow embedding covers:

* the Domain Actions of `PrivateApiFaceTime` (answerCall, leaveCall,
  generateLink, admitParticipant), translated directly from
  `src/packages/server/src/server/api/privateApi/apis/PrivateApiFaceTime.ts`;
* the Transaction Registry and the Action Dispatcher (`sendApiMessage`),
  whose source is not part of the visible repository slice and which are
  therefore modelled from the specification (each such definition carries a
  doc comment saying so);
* the HTTP caller `ChatRouter` (toggleParticipant / update / pagination
  handling), translated from the router source in the same file.

Concurrency is modelled by arbitrary interleavings: a run of concurrent
terminal attempts on the registry is an arbitrary finite list of operations
applied in sequence, which is exactly the serialization the specification's
compare-and-set discipline enforces.
-/

namespace BlueBubbles

/-- A JSON-ish argument value as it appears in an Action Message: the code in
scope only ever passes strings or `null` (`generateLink` passes
`uuid ?? null`). -/
inductive Value where
  | str (s : String)
  | null
deriving DecidableEq, Repr

/-- An `arguments` mapping: argument name to value, in insertion order. -/
abbrev Args := List (String × Value)

/-- `TransactionType` from `transactionPromise`: the `kind` tag of a
transaction.  The visible source uses only `TransactionType.OTHER`. -/
inductive TransactionType where
  | OTHER
deriving DecidableEq, Repr

/-- What a Domain Action hands to the Action Dispatcher: the action name, the
arguments mapping, and the transaction request (`none` = fire-and-forget,
`some kind` = a `new TransactionPromise(kind)` was passed). -/
structure ApiRequest where
  action : String
  args : Args
  transaction : Option TransactionType
deriving DecidableEq, Repr

/-! ### Domain Actions (from `PrivateApiFaceTime.ts`) -/

/-- `answerCall(uuid)`: action `"answer-call"`, args `{callUUID: uuid}`, no
transaction request. -/
def answerCall (uuid : String) : ApiRequest :=
  { action := "answer-call", args := [("callUUID", Value.str uuid)], transaction := none }

/-- `leaveCall(uuid)`: action `"leave-call"`, args `{callUUID: uuid}`, no
transaction request. -/
def leaveCall (uuid : String) : ApiRequest :=
  { action := "leave-call", args := [("callUUID", Value.str uuid)], transaction := none }

/-- `generateLink(uuid = null)`: action `"generate-link"`, args
`{callUUID: uuid ?? null}`, and a `TransactionPromise(TransactionType.OTHER)`
request. -/
def generateLink (uuid : Option String) : ApiRequest :=
  { action := "generate-link",
    args := [("callUUID", uuid.elim Value.null Value.str)],
    transaction := some TransactionType.OTHER }

/-- `admitParticipant(conversationUuid, handleUuid)`: action
`"admit-pending-member"`, args `{conversationUUID, handleUUID}`, no
transaction request. -/
def admitParticipant (conversationUuid handleUuid : String) : ApiRequest :=
  { action := "admit-pending-member",
    args := [("conversationUUID", Value.str conversationUuid),
             ("handleUUID", Value.str handleUuid)],
    transaction := none }

/-! ### Transaction Registry

Modelled from the spec: the `transactionManager` sources are not in the
visible repository slice. -/

/-- The result ultimately delivered to a caller's completion slot: a success
payload, a helper-reported error, or a timeout indication. -/
inductive TransactionResult where
  | ok (payload : Value)
  | err (msg : String)
  | timedOut
deriving DecidableEq, Repr

/-- Modelled from the spec: the Transaction Registry's observable state.
`pending` is the table of pending transactions (correlation id and kind);
`completions` is the append-only log of writes to callers' completion slots
(one entry per delivery, so exactly-once delivery is `length = 1`). -/
structure RegistryState where
  pending : List (String × TransactionType)
  completions : List (String × TransactionResult)
deriving DecidableEq, Repr

/-- Whether `id` currently has a pending entry in the registry table. -/
def pendingHas (s : RegistryState) (id : String) : Bool :=
  s.pending.any (fun p => p.1 = id)

/-- The deliveries made so far to the completion slot of `id`. -/
def completionsFor (s : RegistryState) (id : String) :
    List (String × TransactionResult) :=
  s.completions.filter (fun c => c.1 = id)

/-- A terminal attempt on a transaction: `resolve(id, payload)`,
`reject(id, error)` or the timeout sweep firing for `id`. -/
inductive TermOp where
  | resolve (payload : Value)
  | reject (msg : String)
  | timeout
deriving DecidableEq, Repr

/-- The terminal result a winning attempt writes to the completion slot. -/
def TermOp.result : TermOp → TransactionResult
  | .resolve p => TransactionResult.ok p
  | .reject m => TransactionResult.err m
  | .timeout => TransactionResult.timedOut

/-- Modelled from the spec: one terminal attempt, with the compare-and-set
guard of §4.1 — if the target id is still pending, remove it from the table
and deliver the result to the completion slot; otherwise (unknown id or
already terminal) the attempt is a silent no-op. -/
def applyOp (s : RegistryState) (t : String × TermOp) : RegistryState :=
  if pendingHas s t.1 then
    { pending := s.pending.filter (fun p => ¬(p.1 = t.1)),
      completions := s.completions ++ [(t.1, t.2.result)] }
  else s

/-- A serialized run of terminal attempts (an arbitrary interleaving of
concurrent resolve/reject/timeout attempts). -/
def applyOps (s : RegistryState) (ops : List (String × TermOp)) : RegistryState :=
  ops.foldl applyOp s

/-- The first attempt in the run that targets `id`, if any: under the
compare-and-set discipline it is the unique winner for `id`. -/
def firstTargeting (ops : List (String × TermOp)) (id : String) : Option TermOp :=
  (ops.find? (fun t => t.1 = id)).map (fun t => t.2)

/-! ### Action Dispatcher

Modelled from the spec: `sendApiMessage` lives in `PrivateApiAction`, whose
source is not in the visible repository slice. -/

/-- Failures of a dispatch attempt, per the spec's error taxonomy. -/
inductive DispatchError where
  | transportUnavailable
  | duplicateIdentifier
deriving DecidableEq, Repr

/-- The outbound unit put on the Transport Adapter. -/
structure ActionMessage where
  action : String
  args : Args
  transactionId : Option String
deriving DecidableEq, Repr

/-- Modelled from the spec: `sendApiMessage(action, args, transactionRequest?)`
of the Action Dispatcher (§4.2).  `ready` is the Transport Adapter's
connected/ready status; `freshId` is the correlation identifier the registry
would allocate for this call.  Returns the registry state after the call
together with either a dispatch error or the sent Action Message and the
optional awaitable handle (the registered correlation id). -/
def sendApiMessage (ready : Bool) (s : RegistryState) (freshId : String)
    (req : ApiRequest) :
    RegistryState × Except DispatchError (ActionMessage × Option String) :=
  if ready = false then (s, Except.error DispatchError.transportUnavailable)
  else
    match req.transaction with
    | none =>
        (s, Except.ok ({ action := req.action, args := req.args, transactionId := none }, none))
    | some kind =>
        if pendingHas s freshId then (s, Except.error DispatchError.duplicateIdentifier)
        else
          ({ pending := s.pending ++ [(freshId, kind)], completions := s.completions },
           Except.ok ({ action := req.action, args := req.args, transactionId := some freshId },
                      some freshId))

/-! ### The HTTP caller (`ChatRouter`) -/

/-- A chat as the router sees it: its guid and participant addresses. -/
structure Chat where
  guid : String
  participants : List String
deriving DecidableEq, Repr

/-- The `action` parameter of `ChatRouter.toggleParticipant`. -/
inductive ToggleAction where
  | add
  | remove
deriving DecidableEq, Repr

/-- The response body the router writes, abstracted to the shapes the claims
mention.  `transportUnavailable` is the error `checkPrivateApiStatus` throws
when the helper connection is absent (modelled from the spec). -/
inductive Response where
  | transportUnavailable
  | serverError (msg : String)
  | notFound (msg : String)
  | success (chat : Option Chat) (message : String)
deriving DecidableEq, Repr

/-- The observable outcome of a `toggleParticipant` request: the response,
whether the chat lookup (`getChats`) ran, and the dispatches made to
`ChatInterface.toggleParticipant` (address and action of each call). -/
structure ToggleOutcome where
  response : Response
  lookedUp : Bool
  dispatched : List (String × ToggleAction)
deriving DecidableEq, Repr

namespace ChatRouter

/-- `ChatRouter.toggleParticipant(ctx, _, action)` translated step by step
from the source: `checkPrivateApiStatus()` first, then the
missing/empty-address check, then the chat lookup, then the dispatch to
`ChatInterface.toggleParticipant` and a success response with the fixed
message string.  `apiReady` is the status `checkPrivateApiStatus` checks;
`chats` is what `getChats` would return for the requested guid; `toggle` is
`ChatInterface.toggleParticipant` (external to the visible slice, so kept
abstract as a parameter). -/
def toggleParticipant (apiReady : Bool) (address : Option String)
    (chats : List Chat) (toggle : Chat → String → ToggleAction → Chat)
    (action : ToggleAction) : ToggleOutcome :=
  if apiReady = false then
    { response := Response.transportUnavailable, lookedUp := false, dispatched := [] }
  else
    match address with
    | none =>
        { response := Response.notFound "Participant address not provided!",
          lookedUp := false, dispatched := [] }
    | some a =>
        if a.length = 0 then
          { response := Response.notFound "Participant address not provided!",
            lookedUp := false, dispatched := [] }
        else
          match chats with
          | [] =>
              { response := Response.notFound "Chat does not exist!",
                lookedUp := true, dispatched := [] }
          | chat :: _ =>
              { response := Response.success (some (toggle chat a action))
                  "Successfully added participant!",
                lookedUp := true, dispatched := [(a, action)] }

/-- `ChatRouter.addParticipant` forwards to `toggleParticipant` with `"add"`. -/
def addParticipant (apiReady : Bool) (address : Option String)
    (chats : List Chat) (toggle : Chat → String → ToggleAction → Chat) : ToggleOutcome :=
  toggleParticipant apiReady address chats toggle ToggleAction.add

/-- `ChatRouter.removeParticipant` forwards to `toggleParticipant` with
`"remove"`. -/
def removeParticipant (apiReady : Bool) (address : Option String)
    (chats : List Chat) (toggle : Chat → String → ToggleAction → Chat) : ToggleOutcome :=
  toggleParticipant apiReady address chats toggle ToggleAction.remove

/-- The observable outcome of an `update` request: the response and the calls
made to `ChatInterface.setDisplayName`. -/
structure UpdateOutcome where
  response : Response
  setDisplayNameCalls : List (Chat × String)
deriving DecidableEq, Repr

/-- `ChatRouter.update` translated from the source: private-api config check,
chat lookup, then — only when `displayName` is present and non-empty — a
`ChatInterface.setDisplayName` call pushing `"displayName"` onto `updated` or
its error onto `errors`; finally the three-way response. `setDisplayName` is
external to the visible slice, so kept abstract as a parameter. -/
def update (enablePrivateApi : Bool) (displayName : Option String)
    (chats : List Chat) (setDisplayName : Chat → String → Except String Chat) :
    UpdateOutcome :=
  if enablePrivateApi = false then
    { response := Response.serverError "Private API is not enabled!",
      setDisplayNameCalls := [] }
  else
    match chats with
    | [] =>
        { response := Response.notFound "Chat does not exist!", setDisplayNameCalls := [] }
    | chat :: _ =>
        match displayName with
        | none =>
            { response := Response.success (some chat)
                "Chat not updated! No update information provided!",
              setDisplayNameCalls := [] }
        | some dn =>
            if dn.length = 0 then
              { response := Response.success (some chat)
                  "Chat not updated! No update information provided!",
                setDisplayNameCalls := [] }
            else
              match setDisplayName chat dn with
              | Except.ok chat2 =>
                  { response := Response.success (some chat2)
                      "Successfully updated the following fields: displayName",
                    setDisplayNameCalls := [(chat, dn)] }
              | Except.error e =>
                  { response := Response.serverError e,
                    setDisplayNameCalls := [(chat, dn)] }

/-- The pagination cleanup of `ChatRouter.getMessages`: `offset` defaults to
0, `limit` to 100; a negative offset becomes 0; a limit below 0 or above 1000
becomes 1000.  Inputs are the parsed query parameters (`parseNumber` yields
`none` when absent or unparsable). -/
def getMessagesPagination (offsetParam limitParam : Option Int) : Int × Int :=
  let offset0 := offsetParam.getD 0
  let limit0 := limitParam.getD 100
  let offset := if offset0 < 0 then 0 else offset0
  let limit := if limit0 < 0 ∨ 1000 < limit0 then 1000 else limit0
  (offset, limit)

/-- The pagination cleanup of `ChatRouter.query`: identical to
`getMessagesPagination` except that `limit` defaults to 1000. -/
def queryPagination (offsetParam limitParam : Option Int) : Int × Int :=
  let offset0 := offsetParam.getD 0
  let limit0 := limitParam.getD 1000
  let offset := if offset0 < 0 then 0 else offset0
  let limit := if limit0 < 0 ∨ 1000 < limit0 then 1000 else limit0
  (offset, limit)

end ChatRouter

/-! ### Registry lemmas -/

/-- An attempt targeting a different id never touches the completion slot of
`id`. -/
theorem completionsFor_applyOp_ne {s : RegistryState} {id : String}
    {t : String × TermOp} (h : t.1 ≠ id) :
    completionsFor (applyOp s t) id = completionsFor s id := by
  unfold applyOp
  split
  · unfold completionsFor
    simp [List.filter_append, h]
  · rfl

/-- An attempt targeting a different id never touches the pending entry of
`id`. -/
theorem pendingHas_applyOp_ne {s : RegistryState} {id : String}
    {t : String × TermOp} (h : t.1 ≠ id) :
    pendingHas (applyOp s t) id = pendingHas s id := by
  unfold applyOp
  split
  · unfold pendingHas
    rw [Bool.eq_iff_iff]
    simp only [List.any_eq_true, List.mem_filter, decide_eq_true_eq]
    constructor
    · rintro ⟨p, ⟨hp, _⟩, he⟩
      exact ⟨p, hp, he⟩
    · rintro ⟨p, hp, he⟩
      refine ⟨p, ⟨hp, ?_⟩, he⟩
      have hne : ¬p.1 = t.1 := fun hq => h (hq ▸ he)
      simpa using hne
  · rfl

/-- Unfolding a serialized run one attempt at a time. -/
theorem applyOps_cons (s : RegistryState) (t : String × TermOp)
    (ts : List (String × TermOp)) :
    applyOps s (t :: ts) = applyOps (applyOp s t) ts := rfl

/-- An attempt on an id with no pending entry is a complete no-op. -/
theorem applyOp_not_pending {s : RegistryState} {t : String × TermOp}
    (h : pendingHas s t.1 = false) : applyOp s t = s := by
  unfold applyOp
  simp [h]

/-- A winning attempt removes the pending entry of its target. -/
theorem pendingHas_applyOp_self {s : RegistryState} {id : String} (op : TermOp)
    (h : pendingHas s id = true) :
    pendingHas (applyOp s (id, op)) id = false := by
  unfold applyOp
  simp only [h, if_true]
  unfold pendingHas
  simp only [List.any_eq_false, List.mem_filter, decide_eq_true_eq]
  rintro p ⟨_, hne⟩
  simpa using hne

/-- A winning attempt delivers exactly one new entry to its target's
completion slot. -/
theorem completionsFor_applyOp_self {s : RegistryState} {id : String} (op : TermOp)
    (h : pendingHas s id = true) :
    completionsFor (applyOp s (id, op)) id =
      completionsFor s id ++ [(id, op.result)] := by
  unfold applyOp
  simp only [h, if_true]
  unfold completionsFor
  simp [List.filter_append]

/-- No attempt can recreate a pending entry. -/
theorem pendingHas_applyOp_false {s : RegistryState} {id : String}
    (t : String × TermOp) (h : pendingHas s id = false) :
    pendingHas (applyOp s t) id = false := by
  by_cases he : t.1 = id
  · rw [applyOp_not_pending (he ▸ h)]
    exact h
  · rw [pendingHas_applyOp_ne he]
    exact h

/-- Once `id` has no pending entry, no run of attempts resurrects it or
delivers anything further to its completion slot. -/
theorem applyOps_of_not_pending {s : RegistryState} {id : String}
    (ops : List (String × TermOp)) (h : pendingHas s id = false) :
    pendingHas (applyOps s ops) id = false ∧
    completionsFor (applyOps s ops) id = completionsFor s id := by
  induction ops generalizing s with
  | nil => exact ⟨h, rfl⟩
  | cons t ts ih =>
      have hp : pendingHas (applyOp s t) id = false := pendingHas_applyOp_false t h
      have hc : completionsFor (applyOp s t) id = completionsFor s id := by
        by_cases he : t.1 = id
        · rw [applyOp_not_pending (he ▸ h)]
        · exact completionsFor_applyOp_ne he
      have hrec := ih hp
      rw [applyOps_cons]
      exact ⟨hrec.1, by rw [hrec.2, hc]⟩

/-- The central lemma: starting from a state where `id` is pending with an
untouched completion slot, an arbitrary serialized run of terminal attempts
delivers to `id` exactly the result of the first attempt targeting `id`
(nothing if there is none), and `id` stays pending iff no attempt targeted
it. -/
theorem applyOps_completions (s : RegistryState) (id : String)
    (ops : List (String × TermOp)) (hp : pendingHas s id = true)
    (hc : completionsFor s id = []) :
    (completionsFor (applyOps s ops) id =
      match firstTargeting ops id with
      | none => []
      | some op => [(id, op.result)]) ∧
    (pendingHas (applyOps s ops) id = (firstTargeting ops id).isNone) := by
  induction ops generalizing s with
  | nil => exact ⟨hc, by simp [applyOps, firstTargeting, hp]⟩
  | cons t ts ih =>
      by_cases he : t.1 = id
      · obtain ⟨tid, top⟩ := t
        subst he
        have h1 : completionsFor (applyOp s (tid, top)) tid = [(tid, top.result)] := by
          rw [completionsFor_applyOp_self top hp, hc]
          rfl
        have h2 : pendingHas (applyOp s (tid, top)) tid = false :=
          pendingHas_applyOp_self top hp
        have h3 := applyOps_of_not_pending ts h2
        rw [applyOps_cons]
        refine ⟨?_, ?_⟩
        · rw [h3.2, h1]
          simp [firstTargeting, List.find?_cons]
        · rw [h3.1]
          simp [firstTargeting, List.find?_cons]
      · have hp2 : pendingHas (applyOp s t) id = true := by
          rw [pendingHas_applyOp_ne he]; exact hp
        have hc2 : completionsFor (applyOp s t) id = [] := by
          rw [completionsFor_applyOp_ne he]; exact hc
        have hrec := ih (applyOp s t) hp2 hc2
        rw [applyOps_cons]
        refine ⟨?_, ?_⟩
        · rw [hrec.1]
          simp [firstTargeting, List.find?_cons, he]
        · rw [hrec.2]
          simp [firstTargeting, List.find?_cons, he]

/-- Offset clamping: a negative value becomes 0, and the result is never
negative. -/
theorem clampOffset_nonneg (y : Int) : 0 ≤ (if y < 0 then 0 else y) := by
  split <;> omega

/-- Limit clamping: a value below 0 or above 1000 becomes 1000, and the
result never exceeds 1000. -/
theorem clampLimit_le (y : Int) : (if y < 0 ∨ 1000 < y then 1000 else y) ≤ 1000 := by
  split <;> omega

/-! ### Concrete sample data for witnesses -/

/-- A registry holding one pending transaction with id `"t1"`. -/
def sampleState : RegistryState :=
  { pending := [("t1", TransactionType.OTHER)], completions := [] }

/-- A run of two racing terminal attempts on `"t1"`. -/
def sampleOps : List (String × TermOp) :=
  [("t1", TermOp.resolve Value.null), ("t1", TermOp.timeout)]

/-- A sample chat for router witnesses. -/
def sampleChat : Chat := { guid := "chat-guid", participants := [] }

/-- A sample `ChatInterface.toggleParticipant` stand-in. -/
def sampleToggle : Chat → String → ToggleAction → Chat := fun c _ _ => c

/-! ### Claim theorems -/

/-- C1: for every transaction, at most one transition out of `Pending` ever
succeeds — among any serialized interleaving of concurrent resolve, reject
and timeout attempts on the same id, the completion slot receives at most
one delivery, and if at least one attempt targets the id then exactly one
delivery is made and every further attempt on that id is a no-op. -/
theorem exactlyOnce_resolution (s : RegistryState) (id : String)
    (ops : List (String × TermOp)) (hp : pendingHas s id = true)
    (hc : completionsFor s id = []) :
    (completionsFor (applyOps s ops) id).length ≤ 1 ∧
    ((∃ t ∈ ops, t.1 = id) →
      (completionsFor (applyOps s ops) id).length = 1 ∧
      ∀ op : TermOp, applyOp (applyOps s ops) (id, op) = applyOps s ops) := by
  have h := applyOps_completions s id ops hp hc
  constructor
  · rw [h.1]
    cases firstTargeting ops id <;> simp
  · intro hex
    have hsome : ∃ op, firstTargeting ops id = some op := by
      obtain ⟨t, ht, he⟩ := hex
      have hfind : (ops.find? (fun t => t.1 = id)).isSome := by
        rw [List.find?_isSome]
        exact ⟨t, ht, by simpa using he⟩
      obtain ⟨u, hu⟩ := Option.isSome_iff_exists.mp hfind
      exact ⟨u.2, by unfold firstTargeting; rw [hu]; rfl⟩
    obtain ⟨op, hop⟩ := hsome
    constructor
    · rw [h.1, hop]
      rfl
    · intro op2
      have hnp : pendingHas (applyOps s ops) id = false := by
        rw [h.2, hop]
        rfl
      exact applyOp_not_pending hnp

/-- Witness for C1 at a concrete run: one pending transaction raced by a
resolve and a timeout. -/
theorem exactlyOnce_resolution_witness :
    (completionsFor (applyOps sampleState sampleOps) "t1").length ≤ 1 ∧
    ((∃ t ∈ sampleOps, t.1 = "t1") →
      (completionsFor (applyOps sampleState sampleOps) "t1").length = 1 ∧
      ∀ op : TermOp, applyOp (applyOps sampleState sampleOps) ("t1", op) =
        applyOps sampleState sampleOps) :=
  exactlyOnce_resolution sampleState "t1" sampleOps (by decide) (by decide)

/-- C2: every Domain Action produces the correct action name and argument
shape for its operation and requests a transaction iff the caller needs a
typed result — `generateLink` is the only one with a transaction request. -/
theorem domainActions_shape (uuid c h : String) (link : Option String) :
    answerCall uuid =
      { action := "answer-call", args := [("callUUID", Value.str uuid)],
        transaction := none } ∧
    leaveCall uuid =
      { action := "leave-call", args := [("callUUID", Value.str uuid)],
        transaction := none } ∧
    admitParticipant c h =
      { action := "admit-pending-member",
        args := [("conversationUUID", Value.str c), ("handleUUID", Value.str h)],
        transaction := none } ∧
    generateLink link =
      { action := "generate-link",
        args := [("callUUID", link.elim Value.null Value.str)],
        transaction := some TransactionType.OTHER } :=
  ⟨rfl, rfl, rfl, rfl⟩

/-- C3: when a Domain Action requests a transaction (`generateLink`), the
dispatcher creates a transaction of the requested kind
(`TransactionType.OTHER`), attaches its id to the outgoing Action Message,
sends it, and returns a handle (the id) that completes with whichever
terminal transition — resolve, reject or timeout — occurs first for that
id. -/
theorem generateLink_transaction (uuid : Option String) (s : RegistryState)
    (freshId : String) (hfresh : pendingHas s freshId = false)
    (hc : completionsFor s freshId = []) :
    sendApiMessage true s freshId (generateLink uuid) =
      ({ pending := s.pending ++ [(freshId, TransactionType.OTHER)],
         completions := s.completions },
       Except.ok ({ action := "generate-link",
                    args := [("callUUID", uuid.elim Value.null Value.str)],
                    transactionId := some freshId }, some freshId)) ∧
    ∀ ops : List (String × TermOp),
      completionsFor
          (applyOps { pending := s.pending ++ [(freshId, TransactionType.OTHER)],
                      completions := s.completions } ops) freshId =
        match firstTargeting ops freshId with
        | none => []
        | some op => [(freshId, op.result)] := by
  constructor
  · unfold sendApiMessage generateLink
    simp [hfresh]
  · intro ops
    have hp : pendingHas
        { pending := s.pending ++ [(freshId, TransactionType.OTHER)],
          completions := s.completions } freshId = true := by
      unfold pendingHas
      simp
    have hc2 : completionsFor
        { pending := s.pending ++ [(freshId, TransactionType.OTHER)],
          completions := s.completions } freshId = [] := hc
    exact (applyOps_completions _ freshId ops hp hc2).1

/-- Witness for C3 at a concrete input: empty registry, fresh id `"t1"`, no
call uuid. -/
theorem generateLink_transaction_witness :
    sendApiMessage true { pending := [], completions := [] } "t1" (generateLink none) =
      ({ pending := [("t1", TransactionType.OTHER)], completions := [] },
       Except.ok ({ action := "generate-link", args := [("callUUID", Value.null)],
                    transactionId := some "t1" }, some "t1")) ∧
    ∀ ops : List (String × TermOp),
      completionsFor
          (applyOps { pending := [("t1", TransactionType.OTHER)], completions := [] } ops)
          "t1" =
        match firstTargeting ops "t1" with
        | none => []
        | some op => [("t1", op.result)] :=
  generateLink_transaction none { pending := [], completions := [] } "t1"
    (by decide) (by decide)

/-- C4: a fire-and-forget Domain Action (`answerCall`, `leaveCall`,
`admitParticipant` — no transaction request) leaves the pending table
unchanged (the registry state is returned exactly as it was) and returns
immediately with no awaitable handle. -/
theorem fireAndForget_noRegister (s : RegistryState) (freshId uuid c hnd : String) :
    sendApiMessage true s freshId (answerCall uuid) =
      (s, Except.ok ({ action := "answer-call", args := [("callUUID", Value.str uuid)],
                       transactionId := none }, none)) ∧
    sendApiMessage true s freshId (leaveCall uuid) =
      (s, Except.ok ({ action := "leave-call", args := [("callUUID", Value.str uuid)],
                       transactionId := none }, none)) ∧
    sendApiMessage true s freshId (admitParticipant c hnd) =
      (s, Except.ok ({ action := "admit-pending-member",
                       args := [("conversationUUID", Value.str c),
                                ("handleUUID", Value.str hnd)],
                       transactionId := none }, none)) :=
  ⟨rfl, rfl, rfl⟩

/-- C5: when the Transport Adapter is not ready, `sendApiMessage` fails
synchronously with `TransportUnavailable` and registers nothing (the
registry state is returned unchanged); and in the HTTP caller the
readiness check runs before any validation, lookup, or dispatch — with the
helper disconnected, `toggleParticipant` produces the transport error for
every address and chat list, with no lookup and no dispatch. -/
theorem transportUnavailable_shortCircuit (s : RegistryState) (freshId : String)
    (req : ApiRequest) (address : Option String) (chats : List Chat)
    (toggle : Chat → String → ToggleAction → Chat) (action : ToggleAction) :
    sendApiMessage false s freshId req =
      (s, Except.error DispatchError.transportUnavailable) ∧
    ChatRouter.toggleParticipant false address chats toggle action =
      { response := Response.transportUnavailable, lookedUp := false,
        dispatched := [] } :=
  ⟨rfl, rfl⟩

/-- C6: command-specific validation lives in the caller, not the Domain
Action layer — `admitParticipant` forwards any strings (empty included) and
the dispatcher accepts them, while `ChatRouter.toggleParticipant` rejects a
missing or empty address with no lookup and no dispatch. -/
theorem validation_in_caller (c hnd : String) (s : RegistryState) (freshId : String)
    (chats : List Chat) (toggle : Chat → String → ToggleAction → Chat)
    (action : ToggleAction) :
    admitParticipant c hnd =
      { action := "admit-pending-member",
        args := [("conversationUUID", Value.str c), ("handleUUID", Value.str hnd)],
        transaction := none } ∧
    sendApiMessage true s freshId (admitParticipant "" "") =
      (s, Except.ok ({ action := "admit-pending-member",
                       args := [("conversationUUID", Value.str ""),
                                ("handleUUID", Value.str "")],
                       transactionId := none }, none)) ∧
    ChatRouter.toggleParticipant true none chats toggle action =
      { response := Response.notFound "Participant address not provided!",
        lookedUp := false, dispatched := [] } ∧
    ChatRouter.toggleParticipant true (some "") chats toggle action =
      { response := Response.notFound "Participant address not provided!",
        lookedUp := false, dispatched := [] } :=
  ⟨rfl, rfl, rfl, rfl⟩

/-- C7: every Domain Action is a pure, stateless translation — the
constructed request is a function of the arguments alone, so two invocations
with equal arguments construct identical action names and argument
mappings. -/
theorem domainActions_pure (u₁ u₂ c₁ c₂ h₁ h₂ : String) (g₁ g₂ : Option String)
    (hu : u₁ = u₂) (hc : c₁ = c₂) (hh : h₁ = h₂) (hg : g₁ = g₂) :
    answerCall u₁ = answerCall u₂ ∧ leaveCall u₁ = leaveCall u₂ ∧
    generateLink g₁ = generateLink g₂ ∧
    admitParticipant c₁ h₁ = admitParticipant c₂ h₂ := by
  subst hu; subst hc; subst hh; subst hg
  exact ⟨rfl, rfl, rfl, rfl⟩

/-- Witness for C7 at concrete equal arguments. -/
theorem domainActions_pure_witness :
    answerCall "u" = answerCall "u" ∧ leaveCall "u" = leaveCall "u" ∧
    generateLink (some "g") = generateLink (some "g") ∧
    admitParticipant "c" "h" = admitParticipant "c" "h" :=
  domainActions_pure "u" "u" "c" "c" "h" "h" (some "g") (some "g") rfl rfl rfl rfl

/-- C8: the pagination parameters passed on by `getMessages` and `query`
always satisfy `offset ≥ 0` and `limit ≤ 1000`; a negative offset becomes 0,
a negative or over-1000 limit becomes 1000 (so `limit = -1` yields 1000, not
zero results), and the default limit is 100 for `getMessages` but 1000 for
`query`. -/
theorem pagination_clamped (o l : Option Int) (x : Int) :
    (ChatRouter.getMessagesPagination (some x) l).1 = (if x < 0 then 0 else x) ∧
    (ChatRouter.queryPagination (some x) l).1 = (if x < 0 then 0 else x) ∧
    (ChatRouter.getMessagesPagination o (some x)).2 =
      (if x < 0 ∨ 1000 < x then 1000 else x) ∧
    (ChatRouter.queryPagination o (some x)).2 =
      (if x < 0 ∨ 1000 < x then 1000 else x) ∧
    0 ≤ (ChatRouter.getMessagesPagination o l).1 ∧
    (ChatRouter.getMessagesPagination o l).2 ≤ 1000 ∧
    0 ≤ (ChatRouter.queryPagination o l).1 ∧
    (ChatRouter.queryPagination o l).2 ≤ 1000 ∧
    (ChatRouter.getMessagesPagination o (some (-1))).2 = 1000 ∧
    (ChatRouter.queryPagination o (some (-1))).2 = 1000 ∧
    (ChatRouter.getMessagesPagination o none).2 = 100 ∧
    (ChatRouter.queryPagination o none).2 = 1000 := by
  refine ⟨rfl, rfl, rfl, rfl, ?_, ?_, ?_, ?_, rfl, rfl, rfl, rfl⟩
  · exact clampOffset_nonneg (o.getD 0)
  · exact clampLimit_le (l.getD 100)
  · exact clampOffset_nonneg (o.getD 0)
  · exact clampLimit_le (l.getD 1000)

/-- C9: a successful `toggleParticipant` request always reports
`"Successfully added participant!"`, whatever the action was — in particular
a successful `removeParticipant` (which forwards to `toggleParticipant`
with `"remove"`) reports that a participant was added. -/
theorem toggleParticipant_success_message (apiReady : Bool)
    (address : Option String) (chats : List Chat)
    (toggle : Chat → String → ToggleAction → Chat) (action : ToggleAction)
    (c : Option Chat) (m : String)
    (hs : (ChatRouter.toggleParticipant apiReady address chats toggle action).response =
      Response.success c m) :
    m = "Successfully added participant!" ∧
    ChatRouter.removeParticipant apiReady address chats toggle =
      ChatRouter.toggleParticipant apiReady address chats toggle ToggleAction.remove := by
  refine ⟨?_, rfl⟩
  unfold ChatRouter.toggleParticipant at hs
  split at hs
  · simp at hs
  · split at hs
    · simp at hs
    · split at hs
      · simp at hs
      · split at hs
        · simp at hs
        · simp only [Response.success.injEq] at hs
          exact hs.2.symm

/-- Witness for C9 at a concrete successful remove request. -/
theorem toggleParticipant_success_message_witness :
    "Successfully added participant!" = "Successfully added participant!" ∧
    ChatRouter.removeParticipant true (some "a") [sampleChat] sampleToggle =
      ChatRouter.toggleParticipant true (some "a") [sampleChat] sampleToggle
        ToggleAction.remove :=
  toggleParticipant_success_message true (some "a") [sampleChat] sampleToggle
    ToggleAction.remove (some sampleChat) "Successfully added participant!" (by decide)

/-- C10: an `update` request with no (or an empty) `displayName` makes no
`setDisplayName` call, leaves the chat unchanged, and answers with a success
response carrying the unmodified chat and the message
`"Chat not updated! No update information provided!"`. -/
theorem update_noDisplayName (displayName : Option String) (chat : Chat)
    (rest : List Chat) (setDisplayName : Chat → String → Except String Chat)
    (hdn : displayName = none ∨ displayName = some "") :
    ChatRouter.update true displayName (chat :: rest) setDisplayName =
      { response := Response.success (some chat)
          "Chat not updated! No update information provided!",
        setDisplayNameCalls := [] } := by
  rcases hdn with h | h <;> subst h <;> rfl

/-- Witness for C10 at a concrete chat with a missing and an empty display
name. -/
theorem update_noDisplayName_witness :
    ChatRouter.update true none [sampleChat] (fun c _ => Except.ok c) =
      { response := Response.success (some sampleChat)
          "Chat not updated! No update information provided!",
        setDisplayNameCalls := [] } :=
  update_noDisplayName none sampleChat [] (fun c _ => Except.ok c) (Or.inl rfl)

end BlueBubbles
